import Mathlib

/-!
Verification of the task-submission, deduplication and asynchronous
execution pipeline of the DeepSeek-Oracle backend
(`backend/app/services/analysis_service.py`,
`backend/app/services/llm_service.py`,
`backend/app/models/task_repo.py`, `backend/app/models/result_repo.py`,
`backend/app/models/database.py`, `backend/app/api/analyze.py`).

The Python code is shallowly embedded: SQLite rows become Lean record
values, each `UPDATE`/`INSERT` of the repositories becomes a pure record
update (the `db_cursor` context manager commits each operation as its own
short transaction), service functions become pure functions from an
explicit system state, and exceptions (`AppError`, `int()` failures,
`CancelledTaskError`) become `Except`-style values.
-/

namespace Oracle

/-- Task status values stored in the `status` column of `analysis_tasks`. -/
inductive Status
  | queued
  | running
  | succeeded
  | failed
  | cancelled
deriving DecidableEq

/-- `app.utils.errors.AppError` (code, message, http_status, retryable);
the `details` dict is only used by the validation layer and is out of
scope of the claims. -/
structure AppErr where
  code : String
  message : String
  httpStatus : Nat
  retryable : Bool
deriving DecidableEq

/-- `app.utils.errors.business_error`. -/
def businessError (code message : String) (httpStatus : Nat) (retryable : Bool) : AppErr :=
  { code := code, message := message, httpStatus := httpStatus, retryable := retryable }

/-- Normalized birth fields captured at submission
(`birth_info` in `AnalysisService.submit_analysis`). -/
structure BirthInfo where
  date : String
  timezone : Int
  gender : String
  calendar : String
deriving DecidableEq

/-- One row of the `analysis_tasks` table (the columns the pipeline reads
and writes; `user_id` and the timestamp columns carry no claim-relevant
information beyond nullability, which the status machine does not read). -/
structure TaskRec where
  taskId : String
  status : Status
  progress : Nat
  step : String
  birthDate : String
  timezone : Int
  gender : String
  calendar : String
  provider : String
  model : String
  promptVersion : String
  cacheKey : String
  resultId : Option Nat
  errorCode : Option String
  errorMessage : Option String
  retryCount : Nat
deriving DecidableEq

/-- `TaskRepo.create_task`: INSERT with status `'queued'`, progress 0,
step `'queued'`, `result_id`/`error_*` NULL, `retry_count` 0 (column
defaults). -/
def createTask (taskId : String) (birthInfo : BirthInfo)
    (provider model promptVersion cacheKey : String) : TaskRec :=
  { taskId := taskId
    status := Status.queued
    progress := 0
    step := "queued"
    birthDate := birthInfo.date
    timezone := birthInfo.timezone
    gender := birthInfo.gender
    calendar := birthInfo.calendar
    provider := provider
    model := model
    promptVersion := promptVersion
    cacheKey := cacheKey
    resultId := none
    errorCode := none
    errorMessage := none
    retryCount := 0 }

/-- `TaskRepo.mark_running`: status `'running'`, step/progress set,
error fields cleared (`started_at` is only a timestamp). -/
def markRunning (t : TaskRec) (step : String) (progress : Nat) : TaskRec :=
  { t with status := Status.running, step := step, progress := progress
           errorCode := none, errorMessage := none }

/-- `TaskRepo.mark_progress`: step and progress set, nothing else. -/
def markProgress (t : TaskRec) (step : String) (progress : Nat) : TaskRec :=
  { t with step := step, progress := progress }

/-- `TaskRepo.mark_succeeded`: status `'succeeded'`, step `'done'`,
progress 100, `result_id` set, error fields cleared. -/
def markSucceeded (t : TaskRec) (resultId : Nat) : TaskRec :=
  { t with status := Status.succeeded, step := "done", progress := 100
           resultId := some resultId, errorCode := none, errorMessage := none }

/-- `TaskRepo.mark_failed` (the `retry_count is None` branch, the only one
the service calls): status `'failed'`, error fields set; `result_id`,
`progress`, `retry_count` untouched. -/
def markFailed (t : TaskRec) (errorCode errorMessage : String) : TaskRec :=
  { t with status := Status.failed
           errorCode := some errorCode, errorMessage := some errorMessage }

/-- `TaskRepo.mark_cancelled`: status `'cancelled'` (and `finished_at`);
no other column is written. -/
def markCancelled (t : TaskRec) : TaskRec :=
  { t with status := Status.cancelled }

/-- `TaskRepo.increment_retry`: `retry_count = retry_count + 1` and
nothing else; the Python function returns the new count, which here is
read off the updated record. -/
def incrementRetry (t : TaskRec) : TaskRec :=
  { t with retryCount := t.retryCount + 1 }

/-- `TaskRepo.set_queued`: status `'queued'`, step set, progress 0,
`finished_at`/error fields cleared.  `result_id` is NOT cleared. -/
def setQueued (t : TaskRec) (step : String) : TaskRec :=
  { t with status := Status.queued, step := step, progress := 0
           errorCode := none, errorMessage := none }

/-- Per-sub-analysis payload persisted into `analysis_items` and carried
inside `llm_output["analysis"]` (`LLMService._analyze_single` return
value, minus the redundant provider/model echo).  Python floats are
embedded as exact rationals; no claim depends on float rounding. -/
structure AnalysisItem where
  content : String
  executionTime : Rat
  inputTokens : Int
  outputTokens : Int
  tokenCount : Int
deriving DecidableEq

/-- The non-key columns of an `analysis_results` row together with its
`analysis_items` children (the arguments of `ResultRepo.save_result`
other than `cache_key`).  `analysis` keeps the Python dict's insertion
order; dict keys are distinct. -/
structure ResultData where
  birthInfo : BirthInfo
  textDescription : String
  provider : String
  model : String
  promptVersion : String
  analysis : List (String × AnalysisItem)
  totalExecutionTime : Rat
  totalTokenCount : Int
deriving DecidableEq

/-- One row of `analysis_results` (with its items). -/
structure ResultRow where
  id : Nat
  cacheKey : String
  data : ResultData
deriving DecidableEq

/-- The `analysis_results` table: rows in rowid order plus the next
AUTOINCREMENT id (SQLite starts at 1). -/
structure ResultStore where
  rows : List ResultRow
  nextId : Nat
deriving DecidableEq

/-- The empty `analysis_results` table. -/
def ResultStore.empty : ResultStore := { rows := [], nextId := 1 }

/-- `ResultRepo.find_by_cache_key`: `SELECT ... WHERE cache_key = ? LIMIT 1`. -/
def findByCacheKey (s : ResultStore) (cacheKey : String) : Option ResultRow :=
  s.rows.find? (fun r => r.cacheKey == cacheKey)

/-- `ResultRepo.save_result`.  The INSERT of the result row violates the
`analysis_results.cache_key` UNIQUE constraint exactly when a row with
this cache key already exists; `db_cursor` then rolls the transaction
back (so the item inserts are discarded too), the `sqlite3.IntegrityError`
handler looks the existing row up and returns its id.  Otherwise the row
and its items are committed and the fresh rowid is returned.  (The
re-raise inside the handler when no row is found cannot fire: the
constraint violation implies the row exists.) -/
def saveResult (s : ResultStore) (cacheKey : String) (d : ResultData) :
    Nat × ResultStore :=
  match findByCacheKey s cacheKey with
  | some r => (r.id, s)
  | none =>
      (s.nextId,
        { rows := s.rows ++ [{ id := s.nextId, cacheKey := cacheKey, data := d }]
          nextId := s.nextId + 1 })

/-- The `analysis_results.cache_key` UNIQUE constraint, as a predicate on
the embedded table. -/
def UniqueKeys (s : ResultStore) : Prop :=
  s.rows.Pairwise (fun a b => a.cacheKey ≠ b.cacheKey)

/-- Number of rows holding a given cache key. -/
def countKey (s : ResultStore) (cacheKey : String) : Nat :=
  (s.rows.filter (fun r => r.cacheKey == cacheKey)).length

theorem find?_append_of_none {α : Type} (p : α → Bool) (l₁ l₂ : List α)
    (h : l₁.find? p = none) : (l₁ ++ l₂).find? p = l₂.find? p := by
  rw [List.find?_append, h, Option.none_or]

theorem filter_eq_nil_of_find?_none {α : Type} (p : α → Bool) (l : List α)
    (h : l.find? p = none) : l.filter p = [] :=
  List.filter_eq_nil_iff.mpr (List.find?_eq_none.mp h)

theorem filter_length_one_of_pairwise {α : Type} (key : α → String)
    (l : List α) (k : String)
    (hp : l.Pairwise (fun a b => key a ≠ key b)) (r : α)
    (hf : l.find? (fun a => key a == k) = some r) :
    (l.filter (fun a => key a == k)).length = 1 := by
  induction l with
  | nil => simp [List.find?] at hf
  | cons x xs ih =>
      rcases List.pairwise_cons.mp hp with ⟨hx, hxs⟩
      by_cases hk : key x == k
      · have hkx : key x = k := by simpa using hk
        have hnil : xs.filter (fun a => key a == k) = [] := by
          apply List.filter_eq_nil_iff.mpr
          intro a ha
          have hne : key x ≠ key a := hx a ha
          simp only [beq_iff_eq]
          rw [← hkx]
          exact fun hc => hne hc.symm
        simp [List.filter, hk, hnil]
      · simp only [List.find?, hk] at hf
        have := ih hxs hf
        simp [List.filter, hk, this]

theorem saveResult_found (s : ResultStore) (k : String) (d : ResultData) (r : ResultRow)
    (h : findByCacheKey s k = some r) : saveResult s k d = (r.id, s) := by
  unfold saveResult
  rw [h]

theorem saveResult_fresh (s : ResultStore) (k : String) (d : ResultData)
    (h : findByCacheKey s k = none) :
    saveResult s k d =
      (s.nextId,
        { rows := s.rows ++ [{ id := s.nextId, cacheKey := k, data := d }]
          nextId := s.nextId + 1 }) := by
  unfold saveResult
  rw [h]

/-- C1: `ResultRepo.save_result` is idempotent per fingerprint.  If a row
with the cache key already exists, the constraint-violation handler
returns the existing row's id without touching the store; a second
`save_result` with the same key therefore returns the first call's id,
the store keeps exactly one row for that key, and when the key was fresh
the surviving row holds the FIRST caller's data (the second caller's
computed content is discarded). -/
theorem save_result_idempotent (s : ResultStore) (k : String) (d₁ d₂ : ResultData)
    (hu : UniqueKeys s) :
    (saveResult (saveResult s k d₁).2 k d₂).1 = (saveResult s k d₁).1 ∧
    countKey (saveResult (saveResult s k d₁).2 k d₂).2 k = 1 ∧
    (findByCacheKey s k = none →
      findByCacheKey (saveResult (saveResult s k d₁).2 k d₂).2 k =
        some { id := s.nextId, cacheKey := k, data := d₁ }) := by
  have hu' : s.rows.Pairwise (fun a b => a.cacheKey ≠ b.cacheKey) := hu
  cases hfind : findByCacheKey s k with
  | some r =>
      have h1 : saveResult s k d₁ = (r.id, s) := saveResult_found s k d₁ r hfind
      refine ⟨?_, ?_, ?_⟩
      · rw [h1]
        show (saveResult s k d₂).1 = r.id
        rw [saveResult_found s k d₂ r hfind]
      · rw [h1]
        show countKey (saveResult s k d₂).2 k = 1
        rw [saveResult_found s k d₂ r hfind]
        exact filter_length_one_of_pairwise (fun a => a.cacheKey) s.rows k hu' r
          (show s.rows.find? (fun a => a.cacheKey == k) = some r from hfind)
      · intro hnone
        simp [hfind] at hnone
  | none =>
      have h1 := saveResult_fresh s k d₁ hfind
      have hnone' : s.rows.find? (fun r => r.cacheKey == k) = none := hfind
      have hfound : findByCacheKey (saveResult s k d₁).2 k =
          some { id := s.nextId, cacheKey := k, data := d₁ } := by
        rw [h1]
        show (s.rows ++ [({ id := s.nextId, cacheKey := k, data := d₁ } : ResultRow)]).find?
            (fun a => a.cacheKey == k) =
          some { id := s.nextId, cacheKey := k, data := d₁ }
        rw [find?_append_of_none _ _ _ hnone']
        simp [List.find?]
      have h2 := saveResult_found (saveResult s k d₁).2 k d₂ _ hfound
      refine ⟨?_, ?_, fun _ => by rw [h2]; exact hfound⟩
      · rw [h2, h1]
      · rw [h2, h1]
        show ((s.rows ++ [({ id := s.nextId, cacheKey := k, data := d₁ } : ResultRow)]).filter
            (fun a => a.cacheKey == k)).length = 1
        rw [List.filter_append, filter_eq_nil_of_find?_none _ _ hnone']
        simp [List.filter]

/-- Witness for C1 at the empty store. -/
theorem save_result_idempotent_witness :
    UniqueKeys ResultStore.empty ∧
    (let d : ResultData :=
      { birthInfo := { date := "1990-01-01", timezone := 8, gender := "男", calendar := "solar" }
        textDescription := "t", provider := "mock", model := "mock-v1"
        promptVersion := "v1", analysis := [], totalExecutionTime := 0
        totalTokenCount := 0 };
    (saveResult (saveResult ResultStore.empty "k" d).2 "k" d).1 =
        (saveResult ResultStore.empty "k" d).1 ∧
      countKey (saveResult (saveResult ResultStore.empty "k" d).2 "k" d).2 "k" = 1 ∧
      (findByCacheKey ResultStore.empty "k" = none →
        findByCacheKey (saveResult (saveResult ResultStore.empty "k" d).2 "k" d).2 "k" =
          some { id := ResultStore.empty.nextId, cacheKey := "k", data := d })) := by
  constructor
  · exact List.Pairwise.nil
  · exact save_result_idempotent ResultStore.empty "k" _ _ List.Pairwise.nil

/-- UTF-8 bytes of one character (Python `str.encode("utf-8")`). -/
def utf8Bytes (c : Char) : List Nat :=
  let n := c.toNat
  if n < 128 then [n]
  else if n < 2048 then [192 ||| (n >>> 6), 128 ||| (n &&& 63)]
  else if n < 65536 then
    [224 ||| (n >>> 12), 128 ||| ((n >>> 6) &&& 63), 128 ||| (n &&& 63)]
  else
    [240 ||| (n >>> 18), 128 ||| ((n >>> 12) &&& 63),
     128 ||| ((n >>> 6) &&& 63), 128 ||| (n &&& 63)]

/-- UTF-8 encoding of a string. -/
def utf8Encode (s : String) : List Nat :=
  (s.data.map utf8Bytes).flatten

/-- 2^32, the word modulus of SHA-256. -/
def w32 : Nat := 4294967296

/-- 32-bit right rotation. -/
def rotr (n x : Nat) : Nat := ((x >>> n) ||| (x <<< (32 - n))) % w32

/-- The SHA-256 round constants (FIPS 180-4). -/
def sha256K : List Nat :=
  [1116352408, 1899447441, 3049323471, 3921009573, 961987163,
   1508970993, 2453635748, 2870763221, 3624381080, 310598401,
   607225278, 1426881987, 1925078388, 2162078206, 2614888103,
   3248222580, 3835390401, 4022224774, 264347078, 604807628,
   770255983, 1249150122, 1555081692, 1996064986, 2554220882,
   2821834349, 2952996808, 3210313671, 3336571891, 3584528711,
   113926993, 338241895, 666307205, 773529912, 1294757372,
   1396182291, 1695183700, 1986661051, 2177026350, 2456956037,
   2730485921, 2820302411, 3259730800, 3345764771, 3516065817,
   3600352804, 4094571909, 275423344, 430227734, 506948616,
   659060556, 883997877, 958139571, 1322822218, 1537002063,
   1747873779, 1955562222, 2024104815, 2227730452, 2361852424,
   2428436474, 2756734187, 3204031479, 3329325298]

/-- The eight 32-bit working/hash registers of SHA-256. -/
structure Digest8 where
  h0 : Nat
  h1 : Nat
  h2 : Nat
  h3 : Nat
  h4 : Nat
  h5 : Nat
  h6 : Nat
  h7 : Nat
deriving DecidableEq

/-- SHA-256 initial hash value (FIPS 180-4). -/
def sha256Start : Digest8 :=
  { h0 := 1779033703, h1 := 3144134277, h2 := 1013904242, h3 := 2773480762
    h4 := 1359893119, h5 := 2600822924, h6 := 528734635, h7 := 1541459225 }

/-- Big-endian 8-byte encoding of a 64-bit length. -/
def be64 (n : Nat) : List Nat :=
  (List.range 8).map (fun i => (n >>> (56 - 8 * i)) % 256)

/-- SHA-256 message padding: append `0x80`, zero bytes to 56 mod 64, and
the big-endian bit length. -/
def padMessage (msg : List Nat) : List Nat :=
  msg ++ 128 :: (List.replicate ((119 - msg.length % 64) % 64) 0 ++ be64 (8 * msg.length))

/-- The sixteen big-endian 32-bit words of one 64-byte block. -/
def wordsOfBlock (b : List Nat) : List Nat :=
  (List.range 16).map (fun j =>
    ((b.getD (4 * j) 0) <<< 24) ||| ((b.getD (4 * j + 1) 0) <<< 16) |||
    ((b.getD (4 * j + 2) 0) <<< 8) ||| b.getD (4 * j + 3) 0)

/-- σ₀ of the SHA-256 message schedule. -/
def smallS0 (x : Nat) : Nat := (rotr 7 x) ^^^ (rotr 18 x) ^^^ (x >>> 3)

/-- σ₁ of the SHA-256 message schedule. -/
def smallS1 (x : Nat) : Nat := (rotr 17 x) ^^^ (rotr 19 x) ^^^ (x >>> 10)

/-- Σ₀ of the SHA-256 compression function. -/
def bigS0 (x : Nat) : Nat := (rotr 2 x) ^^^ (rotr 13 x) ^^^ (rotr 22 x)

/-- Σ₁ of the SHA-256 compression function. -/
def bigS1 (x : Nat) : Nat := (rotr 6 x) ^^^ (rotr 11 x) ^^^ (rotr 25 x)

/-- Extend the 16-word schedule by `k` further words. -/
def extendSchedule (w : List Nat) : Nat → List Nat
  | 0 => w
  | k + 1 =>
      let t := (smallS1 (w.getD (w.length - 2) 0) + w.getD (w.length - 7) 0 +
        smallS0 (w.getD (w.length - 15) 0) + w.getD (w.length - 16) 0) % w32
      extendSchedule (w ++ [t]) k

/-- One 64-round SHA-256 block compression. -/
def sha256Compress (st : Digest8) (block : List Nat) : Digest8 :=
  let w := extendSchedule (wordsOfBlock block) 48
  let f := (w.zip sha256K).foldl
    (fun s p =>
      let t1 := (s.h7 + bigS1 s.h4 +
        ((s.h4 &&& s.h5) ^^^ ((s.h4 ^^^ (w32 - 1)) &&& s.h6)) + p.2 + p.1) % w32
      let t2 := (bigS0 s.h0 +
        ((s.h0 &&& s.h1) ^^^ (s.h0 &&& s.h2) ^^^ (s.h1 &&& s.h2))) % w32
      { h0 := (t1 + t2) % w32, h1 := s.h0, h2 := s.h1, h3 := s.h2
        h4 := (s.h3 + t1) % w32, h5 := s.h4, h6 := s.h5, h7 := s.h6 }) st
  { h0 := (st.h0 + f.h0) % w32, h1 := (st.h1 + f.h1) % w32
    h2 := (st.h2 + f.h2) % w32, h3 := (st.h3 + f.h3) % w32
    h4 := (st.h4 + f.h4) % w32, h5 := (st.h5 + f.h5) % w32
    h6 := (st.h6 + f.h6) % w32, h7 := (st.h7 + f.h7) % w32 }

/-- Split a byte list into 64-byte blocks. -/
def chunks64 : List Nat → List (List Nat)
  | [] => []
  | b :: rest => ((b :: rest).take 64) :: chunks64 ((b :: rest).drop 64)
termination_by l => l.length
decreasing_by
  simp only [List.length_drop]
  simp
  omega

/-- SHA-256 of a byte string, as eight 32-bit words. -/
def sha256Digest (msg : List Nat) : Digest8 :=
  (chunks64 (padMessage msg)).foldl sha256Compress sha256Start

/-- The lowercase hex alphabet used by `hashlib`'s `hexdigest`. -/
def hexAlphabet : List Char := "0123456789abcdef".toList

/-- Hex character of a nibble. -/
def hexDigitChar (n : Nat) : Char := hexAlphabet.getD n '0'

/-- Eight hex characters of one 32-bit word, most significant first. -/
def hex8 (x : Nat) : List Char :=
  (List.range 8).map (fun i => hexDigitChar ((x >>> (28 - 4 * i)) % 16))

/-- `hashlib.sha256(...).hexdigest()`: the 64-character lowercase hex
digest. -/
def sha256Hex (msg : List Nat) : String :=
  String.mk (hex8 (sha256Digest msg).h0 ++ hex8 (sha256Digest msg).h1 ++
    hex8 (sha256Digest msg).h2 ++ hex8 (sha256Digest msg).h3 ++
    hex8 (sha256Digest msg).h4 ++ hex8 (sha256Digest msg).h5 ++
    hex8 (sha256Digest msg).h6 ++ hex8 (sha256Digest msg).h7)

/-- `AnalysisService._build_cache_key`: the seven fields joined with `"|"`
in fixed order (Python's f-string prints the int timezone in decimal, as
`toString` does), UTF-8 encoded and hashed with SHA-256. -/
def buildCacheKey (date : String) (timezone : Int)
    (gender calendar provider model promptVersion : String) : String :=
  sha256Hex (utf8Encode (String.intercalate "|"
    [date, toString timezone, gender, calendar, provider, model, promptVersion]))

/-- A JSON scalar occupying the `timezone` field of the raw payload:
`submit_analysis` and `check_cache` coerce it themselves with Python
`int(...)`, so it may arrive as an int or as a numeric string. -/
inductive PyVal
  | int (n : Int)
  | str (s : String)
deriving DecidableEq

/-- Decimal value of a digit list (most significant first). -/
def decDigitsVal (cs : List Char) : Nat :=
  cs.foldl (fun acc c => acc * 10 + (c.toNat - 48)) 0

/-- Python `int(s)` for a string argument: optional surrounding
whitespace (spaces modeled), an optional sign, then one or more decimal
digits; anything else raises `ValueError`.  (Underscore group separators
are accepted by CPython but never relevant to the claims.) -/
def parseIntStr (s : String) : Option Int :=
  let trimmed := ((s.data.dropWhile (fun c => c == ' ')).reverse.dropWhile
    (fun c => c == ' ')).reverse
  match trimmed with
  | '-' :: body =>
      if body ≠ [] ∧ body.all Char.isDigit then some (-(decDigitsVal body : Int)) else none
  | '+' :: body =>
      if body ≠ [] ∧ body.all Char.isDigit then some ((decDigitsVal body : Int)) else none
  | body =>
      if body ≠ [] ∧ body.all Char.isDigit then some ((decDigitsVal body : Int)) else none

/-- Python `int(x)` as used on `payload["timezone"]`. -/
def pyInt : PyVal → Option Int
  | PyVal.int n => some n
  | PyVal.str s => parseIntStr s

/-- The request payload fields `submit_analysis`/`check_cache` read.
Optional keys follow `payload.get(key, default)`. -/
structure Payload where
  date : String
  timezone : PyVal
  gender : String
  calendar : String
  provider : Option String
  model : Option String
  promptVersion : Option String
deriving DecidableEq

/-- The `AnalysisService` constructor configuration used by the claims. -/
structure ServiceConfig where
  defaultProvider : String
  defaultModel : String
  defaultPromptVersion : String
  maxTaskRetry : Nat
  llmMaxRetries : Nat
deriving DecidableEq

/-- The shared mutable state the dispatcher touches: the `analysis_tasks`
table (rowid order), the `analysis_results` table, and the external job
queue observed through `queue.enqueue` (the list of enqueued task ids). -/
structure SysState where
  tasks : List TaskRec
  results : ResultStore
  queue : List String
deriving DecidableEq

/-- `TaskRepo.get_task`: `SELECT ... WHERE task_id = ? LIMIT 1`
(`task_id` is UNIQUE). -/
def getTask (tasks : List TaskRec) (taskId : String) : Option TaskRec :=
  tasks.find? (fun t => t.taskId == taskId)

/-- `status IN ('queued', 'running')`. -/
def isActiveStatus : Status → Bool
  | Status.queued => true
  | Status.running => true
  | _ => false

/-- `TaskRepo.find_active_task_by_cache_key`: newest (`ORDER BY id DESC
LIMIT 1`) task with this cache key whose status is queued or running. -/
def findActiveTask (tasks : List TaskRec) (cacheKey : String) : Option TaskRec :=
  (tasks.filter (fun t => t.cacheKey == cacheKey && isActiveStatus t.status)).getLast?

/-- An UPDATE ... WHERE task_id = ? against the embedded table. -/
def updateTask (tasks : List TaskRec) (taskId : String) (f : TaskRec → TaskRec) :
    List TaskRec :=
  tasks.map (fun t => if t.taskId == taskId then f t else t)

/-- Exceptions that can escape the service entry points: `int()` raising
`ValueError`, or an `AppError`. -/
inductive PyExc
  | valueError
  | appErr (e : AppErr)
deriving DecidableEq

/-- The dict returned by `AnalysisService.submit_analysis`; `none` in an
optional field means the key is ABSENT from the dict. -/
structure SubmitResp where
  hitCache : Bool
  resultId : Option Nat
  taskId : Option String
  status : Option Status
  pollAfterMs : Option Nat
  reusedTask : Option Bool
deriving DecidableEq

/-- `AnalysisService.submit_analysis`.  `newTaskId` stands for the
generated `task_{uuid4...}` id.  Enqueueing is the append of the task id
to the external queue (`_enqueue_task`); queue failures are an external
fault not modeled here. -/
def submitAnalysis (cfg : ServiceConfig) (st : SysState) (p : Payload)
    (newTaskId : String) : Except PyExc (SubmitResp × SysState) :=
  let provider := p.provider.getD cfg.defaultProvider
  let model := p.model.getD cfg.defaultModel
  let promptVersion := p.promptVersion.getD cfg.defaultPromptVersion
  match pyInt p.timezone with
  | none => Except.error PyExc.valueError
  | some tz =>
      let cacheKey := buildCacheKey p.date tz p.gender p.calendar provider model promptVersion
      match findByCacheKey st.results cacheKey with
      | some cached =>
          Except.ok ({ hitCache := true, resultId := some cached.id, taskId := none,
                       status := none, pollAfterMs := none, reusedTask := none }, st)
      | none =>
          match findActiveTask st.tasks cacheKey with
          | some t =>
              Except.ok ({ hitCache := false, resultId := none, taskId := some t.taskId,
                           status := some t.status, pollAfterMs := some 2000,
                           reusedTask := some true }, st)
          | none =>
              let task := createTask newTaskId
                { date := p.date, timezone := tz, gender := p.gender, calendar := p.calendar }
                provider model promptVersion cacheKey
              Except.ok ({ hitCache := false, resultId := none, taskId := some newTaskId,
                           status := some Status.queued, pollAfterMs := some 2000,
                           reusedTask := none },
                { st with tasks := st.tasks ++ [task], queue := st.queue ++ [newTaskId] })

/-- The `data` dict built by the `/analyze` endpoint (`api/analyze.py`)
from the service's return value; on the accepted branch it always carries
`reused_task`, defaulting the missing key to `False` via
`bool(result.get("reused_task", False))`. -/
structure AnalyzeData where
  hitCache : Bool
  resultId : Option Nat
  taskId : Option String
  status : Option Status
  pollAfterMs : Option Nat
  reusedTask : Option Bool
deriving DecidableEq

/-- The `/analyze` endpoint's response data for a service result. -/
def analyzeEndpointData (r : SubmitResp) : AnalyzeData :=
  if r.hitCache then
    { hitCache := true, resultId := r.resultId, taskId := none, status := none,
      pollAfterMs := none, reusedTask := none }
  else
    { hitCache := false, resultId := none, taskId := r.taskId, status := r.status,
      pollAfterMs := r.pollAfterMs, reusedTask := some (r.reusedTask.getD false) }

/-- The fingerprint computation and read-only result lookup of
`AnalysisService.check_cache` (its remaining work renders display strings
from the row found here and mutates nothing). -/
def checkCacheLookup (cfg : ServiceConfig) (st : SysState) (p : Payload) :
    Except PyExc (Option ResultRow) :=
  let provider := p.provider.getD cfg.defaultProvider
  let model := p.model.getD cfg.defaultModel
  let promptVersion := p.promptVersion.getD cfg.defaultPromptVersion
  match pyInt p.timezone with
  | none => Except.error PyExc.valueError
  | some tz =>
      Except.ok (findByCacheKey st.results
        (buildCacheKey p.date tz p.gender p.calendar provider model promptVersion))

/-- `AnalysisService.cancel_task`: NotFound for unknown ids, Conflict
unless status is queued/running, otherwise `mark_cancelled`; returns the
`{"task_id", "status": "cancelled"}` payload.  The updated table is
returned alongside so Conflict's non-mutation is visible. -/
def cancelTask (tasks : List TaskRec) (taskId : String) :
    Except AppErr (String × Status) × List TaskRec :=
  match getTask tasks taskId with
  | none => (Except.error (businessError "A4004" "task not found" 404 false), tasks)
  | some t =>
      if isActiveStatus t.status then
        (Except.ok (taskId, Status.cancelled), updateTask tasks taskId markCancelled)
      else
        (Except.error (businessError "A4009" "task cannot be cancelled in current status"
          409 false), tasks)

/-- The dict returned by `AnalysisService.retry_task` on success. -/
structure RetryResp where
  taskId : String
  status : Status
  retryCount : Nat
deriving DecidableEq

/-- `AnalysisService.retry_task`.  NOTE the source order: for a failed
task `increment_retry` UPDATEs `retry_count` (its own committed
transaction) BEFORE the budget check, so the budget-exhausted Conflict
leaves the increment behind. -/
def retryTask (cfg : ServiceConfig) (st : SysState) (taskId : String) :
    Except AppErr RetryResp × SysState :=
  match getTask st.tasks taskId with
  | none => (Except.error (businessError "A4004" "task not found" 404 false), st)
  | some t =>
      if t.status = Status.failed then
        let tasks1 := updateTask st.tasks taskId incrementRetry
        let retryCount := t.retryCount + 1
        if retryCount > cfg.maxTaskRetry then
          (Except.error (businessError "A4009" "max retry reached" 409 false),
            { st with tasks := tasks1 })
        else
          (Except.ok { taskId := taskId, status := Status.queued, retryCount := retryCount },
            { st with tasks := updateTask tasks1 taskId (fun u => setQueued u "queued"),
                      queue := st.queue ++ [taskId] })
      else
        (Except.error (businessError "A4009" "only failed task can retry" 409 false), st)

theorem hexDigitChar_mem (n : Nat) (h : n < 16) : hexDigitChar n ∈ hexAlphabet := by
  interval_cases n <;> decide

theorem hex8_length (x : Nat) : (hex8 x).length = 8 := by
  simp [hex8]

theorem hex8_mem (x : Nat) (c : Char) (hc : c ∈ hex8 x) : c ∈ hexAlphabet := by
  simp only [hex8, List.mem_map] at hc
  obtain ⟨i, _, rfl⟩ := hc
  exact hexDigitChar_mem _ (Nat.mod_lt _ (by omega))

theorem sha256Hex_length (msg : List Nat) : (sha256Hex msg).length = 64 := by
  show (String.mk _).length = 64
  simp [String.length, sha256Hex, hex8_length]

theorem sha256Hex_chars (msg : List Nat) (c : Char) (hc : c ∈ (sha256Hex msg).data) :
    c ∈ hexAlphabet := by
  simp only [sha256Hex, String.mk, List.mem_append] at hc
  rcases hc with ((((((h | h) | h) | h) | h) | h) | h) | h <;> exact hex8_mem _ _ h

/-- C8: the fingerprint is the SHA-256 hex digest of the delimiter-joined,
order-fixed concatenation of the seven fields; the digest has fixed
length 64 and consists only of hex characters; and the construction is a
pure function of the seven fields — equal inputs give equal outputs (the
embedding is of the whole of `_build_cache_key`, which performs no I/O
and touches no state). -/
theorem build_cache_key_hex_digest_pure (date : String) (timezone : Int)
    (gender calendar provider model promptVersion : String)
    (date' : String) (timezone' : Int)
    (gender' calendar' provider' model' promptVersion' : String)
    (h1 : date = date') (h2 : timezone = timezone') (h3 : gender = gender')
    (h4 : calendar = calendar') (h5 : provider = provider')
    (h6 : model = model') (h7 : promptVersion = promptVersion') :
    buildCacheKey date timezone gender calendar provider model promptVersion =
      sha256Hex (utf8Encode (String.intercalate "|"
        [date, toString timezone, gender, calendar, provider, model, promptVersion])) ∧
    (buildCacheKey date timezone gender calendar provider model promptVersion).length = 64 ∧
    (∀ c ∈ (buildCacheKey date timezone gender calendar provider model promptVersion).data,
      c ∈ hexAlphabet) ∧
    buildCacheKey date timezone gender calendar provider model promptVersion =
      buildCacheKey date' timezone' gender' calendar' provider' model' promptVersion' := by
  subst h1 h2 h3 h4 h5 h6 h7
  exact ⟨rfl, sha256Hex_length _, fun c hc => sha256Hex_chars _ c hc, rfl⟩

/-- Witness for C8 at the spec's determinism example
(`date="1990-01-01", timezone=8, gender="男", calendar="solar",
provider="mock", model="mock-v1", prompt_version="v1"`). -/
theorem build_cache_key_hex_digest_pure_witness :
    "1990-01-01" = "1990-01-01" ∧
    (buildCacheKey "1990-01-01" 8 "男" "solar" "mock" "mock-v1" "v1").length = 64 ∧
    buildCacheKey "1990-01-01" 8 "男" "solar" "mock" "mock-v1" "v1" =
      buildCacheKey "1990-01-01" 8 "男" "solar" "mock" "mock-v1" "v1" := by
  have h := build_cache_key_hex_digest_pure "1990-01-01" 8 "男" "solar" "mock" "mock-v1" "v1"
    "1990-01-01" 8 "男" "solar" "mock" "mock-v1" "v1" rfl rfl rfl rfl rfl rfl rfl
  exact ⟨rfl, h.2.1, h.2.2.2⟩


/-- Constructor shorthand for the `submit_analysis` return dict. -/
def mkResp (hitCache : Bool) (resultId : Option Nat) (taskId : Option String)
    (status : Option Status) (pollAfterMs : Option Nat) (reusedTask : Option Bool) :
    SubmitResp :=
  { hitCache := hitCache, resultId := resultId, taskId := taskId, status := status
    pollAfterMs := pollAfterMs, reusedTask := reusedTask }

/-- The task row appended by the new-task branch of `submit_analysis`. -/
def newTaskOf (cfg : ServiceConfig) (p : Payload) (tz : Int) (newTaskId : String) : TaskRec :=
  createTask newTaskId
    { date := p.date, timezone := tz, gender := p.gender, calendar := p.calendar }
    (p.provider.getD cfg.defaultProvider) (p.model.getD cfg.defaultModel)
    (p.promptVersion.getD cfg.defaultPromptVersion)
    (buildCacheKey p.date tz p.gender p.calendar (p.provider.getD cfg.defaultProvider)
      (p.model.getD cfg.defaultModel) (p.promptVersion.getD cfg.defaultPromptVersion))

/-- C2: cache-hit idempotence of submission.  Whenever the computed
fingerprint has a persisted Result row, `submit_analysis` returns
`hit_cache=True` with that row's id and the state is untouched: no task
row is created and nothing is enqueued.  Because the hypothesis only
requires the Result row to exist, this covers every subsequent submit
with the same normalized fields once a task for the fingerprint has
succeeded (success persists exactly such a row, see `runTask`). -/
theorem submit_cache_hit_idempotent (cfg : ServiceConfig) (st : SysState) (p : Payload)
    (newTaskId : String) (tz : Int) (r : ResultRow)
    (htz : pyInt p.timezone = some tz)
    (hfound : findByCacheKey st.results
      (buildCacheKey p.date tz p.gender p.calendar (p.provider.getD cfg.defaultProvider)
        (p.model.getD cfg.defaultModel) (p.promptVersion.getD cfg.defaultPromptVersion)) =
      some r) :
    submitAnalysis cfg st p newTaskId =
      Except.ok (mkResp true (some r.id) none none none none, st) := by
  unfold submitAnalysis
  simp only [htz, hfound]
  rfl

/-- Shared fixture: the example service configuration. -/
def exCfg : ServiceConfig :=
  { defaultProvider := "mock", defaultModel := "mock-v1", defaultPromptVersion := "v1"
    maxTaskRetry := 2, llmMaxRetries := 2 }

/-- Shared fixture: the spec's example payload. -/
def exPayload : Payload :=
  { date := "1990-01-01", timezone := PyVal.int 8, gender := "男", calendar := "solar"
    provider := some "mock", model := some "mock-v1", promptVersion := some "v1" }

/-- Shared fixture: the fingerprint of `exPayload`. -/
def exKey : String := buildCacheKey "1990-01-01" 8 "男" "solar" "mock" "mock-v1" "v1"

/-- Shared fixture: a persisted result payload. -/
def exData : ResultData :=
  { birthInfo := { date := "1990-01-01", timezone := 8, gender := "男", calendar := "solar" }
    textDescription := "desc", provider := "mock", model := "mock-v1", promptVersion := "v1"
    analysis := [], totalExecutionTime := 0, totalTokenCount := 0 }

/-- Shared fixture: a persisted result row under `exKey`. -/
def exRow : ResultRow := { id := 1, cacheKey := exKey, data := exData }

/-- Shared fixture: a system state whose result store holds `exRow`. -/
def exStHit : SysState :=
  { tasks := [], results := { rows := [exRow], nextId := 2 }, queue := [] }

/-- Witness for C2 at `exStHit`. -/
theorem submit_cache_hit_idempotent_witness :
    pyInt exPayload.timezone = some 8 ∧
    submitAnalysis exCfg exStHit exPayload "task_new" =
      Except.ok (mkResp true (some exRow.id) none none none none, exStHit) := by
  refine ⟨rfl, ?_⟩
  apply submit_cache_hit_idempotent exCfg exStHit exPayload "task_new" 8 exRow rfl
  simp [findByCacheKey, exStHit, exRow, exKey, exPayload, exCfg, List.find?]

/-- C6: in-flight task reuse.  When the fingerprint has no persisted
Result but `find_active_task_by_cache_key` returns a queued/running task,
`submit_analysis` answers with that task's id and `reused_task=True`, and
the state is untouched: no task row is created and nothing is enqueued. -/
theorem submit_reuses_active_task (cfg : ServiceConfig) (st : SysState) (p : Payload)
    (newTaskId : String) (tz : Int) (t : TaskRec)
    (htz : pyInt p.timezone = some tz)
    (hnores : findByCacheKey st.results
      (buildCacheKey p.date tz p.gender p.calendar (p.provider.getD cfg.defaultProvider)
        (p.model.getD cfg.defaultModel) (p.promptVersion.getD cfg.defaultPromptVersion)) =
      none)
    (hactive : findActiveTask st.tasks
      (buildCacheKey p.date tz p.gender p.calendar (p.provider.getD cfg.defaultProvider)
        (p.model.getD cfg.defaultModel) (p.promptVersion.getD cfg.defaultPromptVersion)) =
      some t) :
    submitAnalysis cfg st p newTaskId =
      Except.ok (mkResp false none (some t.taskId) (some t.status) (some 2000) (some true),
        st) := by
  unfold submitAnalysis
  simp only [htz, hnores, hactive]
  rfl

/-- Shared fixture: an in-flight (queued) task for `exKey`. -/
def exActiveTask : TaskRec :=
  createTask "task_active"
    { date := "1990-01-01", timezone := 8, gender := "男", calendar := "solar" }
    "mock" "mock-v1" "v1" exKey

/-- Shared fixture: a state with one queued task for `exKey` and no
persisted result. -/
def exStActive : SysState :=
  { tasks := [exActiveTask], results := ResultStore.empty, queue := [] }

/-- Witness for C6 at `exStActive`. -/
theorem submit_reuses_active_task_witness :
    pyInt exPayload.timezone = some 8 ∧
    submitAnalysis exCfg exStActive exPayload "task_new" =
      Except.ok (mkResp false none (some exActiveTask.taskId) (some exActiveTask.status)
        (some 2000) (some true), exStActive) := by
  refine ⟨rfl, ?_⟩
  apply submit_reuses_active_task exCfg exStActive exPayload "task_new" 8 exActiveTask rfl rfl
  simp [findActiveTask, exStActive, exActiveTask, createTask, exKey, exPayload, exCfg,
    isActiveStatus]

/-- C7: new-task submission.  When the fingerprint matches neither a
persisted Result nor an active task, `submit_analysis` appends exactly
one new task row — created `queued` with progress 0 — hands exactly its
id to the external queue, and returns the new task id with
`hit_cache=False`; the service dict itself omits `reused_task` (`none`
here), and the `/analyze` endpoint's response data defaults the missing
key to `False`, so the HTTP response carries `reused_task=false`. -/
theorem submit_creates_new_task (cfg : ServiceConfig) (st : SysState) (p : Payload)
    (newTaskId : String) (tz : Int)
    (htz : pyInt p.timezone = some tz)
    (hnores : findByCacheKey st.results
      (buildCacheKey p.date tz p.gender p.calendar (p.provider.getD cfg.defaultProvider)
        (p.model.getD cfg.defaultModel) (p.promptVersion.getD cfg.defaultPromptVersion)) =
      none)
    (hnoactive : findActiveTask st.tasks
      (buildCacheKey p.date tz p.gender p.calendar (p.provider.getD cfg.defaultProvider)
        (p.model.getD cfg.defaultModel) (p.promptVersion.getD cfg.defaultPromptVersion)) =
      none) :
    submitAnalysis cfg st p newTaskId =
      Except.ok (mkResp false none (some newTaskId) (some Status.queued) (some 2000) none,
        { st with tasks := st.tasks ++ [newTaskOf cfg p tz newTaskId],
                  queue := st.queue ++ [newTaskId] }) ∧
    (newTaskOf cfg p tz newTaskId).status = Status.queued ∧
    (newTaskOf cfg p tz newTaskId).progress = 0 ∧
    (analyzeEndpointData
      (mkResp false none (some newTaskId) (some Status.queued) (some 2000) none)).reusedTask =
      some false := by
  refine ⟨?_, rfl, rfl, rfl⟩
  unfold submitAnalysis
  simp only [htz, hnores, hnoactive]
  rfl

/-- Shared fixture: the empty system state. -/
def exStEmpty : SysState :=
  { tasks := [], results := ResultStore.empty, queue := [] }

/-- Witness for C7 at the empty state. -/
theorem submit_creates_new_task_witness :
    pyInt exPayload.timezone = some 8 ∧
    submitAnalysis exCfg exStEmpty exPayload "task_new" =
      Except.ok (mkResp false none (some "task_new") (some Status.queued) (some 2000) none,
        { exStEmpty with tasks := exStEmpty.tasks ++ [newTaskOf exCfg exPayload 8 "task_new"],
                         queue := exStEmpty.queue ++ ["task_new"] }) := by
  exact ⟨rfl, (submit_creates_new_task exCfg exStEmpty exPayload "task_new" 8 rfl rfl rfl).1⟩

/-- C10: timezone normalization.  Both `submit_analysis` and
`check_cache` coerce `payload["timezone"]` with `int(...)` before the
fingerprint is built, so a payload carrying the timezone as a numeric
string behaves exactly like the payload carrying the parsed integer:
same fingerprint, hence identical cache/dedup behaviour, identical
response and identical resulting state. -/
theorem timezone_string_int_equivalent (cfg : ServiceConfig) (st : SysState)
    (p : Payload) (newTaskId : String) (s0 : String) (n : Int)
    (hs : p.timezone = PyVal.str s0) (hparse : parseIntStr s0 = some n) :
    submitAnalysis cfg st p newTaskId =
      submitAnalysis cfg st { p with timezone := PyVal.int n } newTaskId ∧
    checkCacheLookup cfg st p =
      checkCacheLookup cfg st { p with timezone := PyVal.int n } := by
  have hpy : pyInt p.timezone = some n := by rw [hs]; exact hparse
  have hpy2 : pyInt (PyVal.int n) = some n := rfl
  constructor
  · unfold submitAnalysis
    simp only [hpy, hpy2]
  · unfold checkCacheLookup
    simp only [hpy, hpy2]

/-- Witness for C10: timezone `"8"` versus `8` on the example payload. -/
theorem timezone_string_int_equivalent_witness :
    parseIntStr "8" = some 8 ∧
    submitAnalysis exCfg exStEmpty { exPayload with timezone := PyVal.str "8" } "task_new" =
      submitAnalysis exCfg exStEmpty { exPayload with timezone := PyVal.int 8 } "task_new" := by
  refine ⟨by decide, ?_⟩
  exact (timezone_string_int_equivalent exCfg exStEmpty _ "task_new" "8" 8 rfl (by decide)).1

/-- C4 (amended): Conflict atomicity of cancel and retry, except that a
budget-exhausted retry DOES increment `retry_count`.  `cancel_task` on a
task that is not queued/running raises Conflict and leaves the table
unchanged; `retry_task` on a non-failed task raises Conflict and leaves
the state unchanged; `retry_task` on a failed task whose budget is
exhausted (`retry_count+1 > max_task_retry`) raises Conflict but only
AFTER `increment_retry` committed, so the task's `retry_count` is
incremented (nothing else changes, and nothing is re-enqueued). -/
theorem cancel_retry_conflict_effects (cfg : ServiceConfig) (st : SysState)
    (taskId : String) (t : TaskRec) (hget : getTask st.tasks taskId = some t) :
    (isActiveStatus t.status = false →
      cancelTask st.tasks taskId =
        (Except.error (businessError "A4009" "task cannot be cancelled in current status"
          409 false), st.tasks)) ∧
    (t.status ≠ Status.failed →
      retryTask cfg st taskId =
        (Except.error (businessError "A4009" "only failed task can retry" 409 false), st)) ∧
    (t.status = Status.failed → t.retryCount + 1 > cfg.maxTaskRetry →
      retryTask cfg st taskId =
        (Except.error (businessError "A4009" "max retry reached" 409 false),
          { st with tasks := updateTask st.tasks taskId incrementRetry })) := by
  refine ⟨?_, ?_, ?_⟩
  · intro hact
    unfold cancelTask
    simp only [hget, hact]
    rfl
  · intro hst
    unfold retryTask
    simp only [hget]
    simp [hst]
  · intro hst hbudget
    unfold retryTask
    simp only [hget]
    simp [hst, hbudget]

/-- Shared fixture: a failed task with its retry budget already used up
under `exCfg` (`retry_count = max_task_retry = 2`). -/
def exFailedTask : TaskRec :=
  { taskId := "task_fail", status := Status.failed, progress := 30, step := "llm_batch"
    birthDate := "1990-01-01", timezone := 8, gender := "男", calendar := "solar"
    provider := "mock", model := "mock-v1", promptVersion := "v1", cacheKey := "cache_plain"
    resultId := none, errorCode := some "A3002", errorMessage := some "llm provider error"
    retryCount := 2 }

/-- Shared fixture: a state holding only `exFailedTask`. -/
def exFailedSt : SysState :=
  { tasks := [exFailedTask], results := ResultStore.empty, queue := [] }

deriving instance DecidableEq for Except

/-- Counterexample to C4 as stated: retrying `exFailedTask` (failed,
`retry_count = 2`, budget `max_task_retry = 2` exhausted) returns
Conflict, yet the task record is NOT left unchanged — its `retry_count`
becomes 3. -/
theorem retry_exhausted_mutates_counterexample :
    (retryTask exCfg exFailedSt "task_fail").1 =
      Except.error (businessError "A4009" "max retry reached" 409 false) ∧
    (retryTask exCfg exFailedSt "task_fail").2 ≠ exFailedSt ∧
    (getTask (retryTask exCfg exFailedSt "task_fail").2.tasks "task_fail").map
      TaskRec.retryCount = some 3 := by
  refine ⟨?_, ?_, ?_⟩ <;> decide

/-- Witness for C4 (amended) at `exFailedSt`: the Conflict branches of
both operations are exercised on a concrete failed task with exhausted
budget. -/
theorem cancel_retry_conflict_effects_witness :
    getTask exFailedSt.tasks "task_fail" = some exFailedTask ∧
    isActiveStatus exFailedTask.status = false ∧
    exFailedTask.retryCount + 1 > exCfg.maxTaskRetry ∧
    cancelTask exFailedSt.tasks "task_fail" =
      (Except.error (businessError "A4009" "task cannot be cancelled in current status"
        409 false), exFailedSt.tasks) ∧
    retryTask exCfg exFailedSt "task_fail" =
      (Except.error (businessError "A4009" "max retry reached" 409 false),
        { exFailedSt with
          tasks := updateTask exFailedSt.tasks "task_fail" incrementRetry }) := by
  have h := cancel_retry_conflict_effects exCfg exFailedSt "task_fail" exFailedTask
    (by decide)
  exact ⟨by decide, by decide, by decide, h.1 (by decide), h.2.2 (by decide) (by decide)⟩

/-- A provider `generate` response (`LLMResponse` in
`llm_providers/base.py`): the fields `_analyze_single` reads. -/
structure LLMResp where
  content : String
  latencyMs : Rat
  inputTokens : Int
  outputTokens : Int
  totalTokens : Int
deriving DecidableEq

/-- What one `create_provider(...).generate(prompt, timeout_s)` call does
on a given attempt: return a response, raise an `AppError`, raise
`TimeoutError`, or raise any other exception. -/
inductive ProviderOutcome
  | ok (resp : LLMResp)
  | appErr (e : AppErr)
  | timeoutErr (msg : String)
  | otherErr (msg : String)
deriving DecidableEq

/-- Retry loop body of `LLMService._analyze_single`: attempts are numbered
`0..max_retries`; an `AppError` is re-attempted only when `retryable` and
budget remains, a `TimeoutError` or any other exception is re-attempted
while budget remains and otherwise wrapped as A3001/A3002.  The
`time.sleep(2**attempt)` backoff has no state effect. -/
def attemptLoopAux (attempts : Nat → ProviderOutcome) :
    Nat → Nat → Except AppErr LLMResp
  | attempt, 0 =>
      match attempts attempt with
      | ProviderOutcome.ok r => Except.ok r
      | ProviderOutcome.appErr e => Except.error e
      | ProviderOutcome.timeoutErr m =>
          Except.error (businessError "A3001" ("llm timeout: " ++ m) 504 true)
      | ProviderOutcome.otherErr m =>
          Except.error (businessError "A3002" ("llm provider error: " ++ m) 502 true)
  | attempt, remaining + 1 =>
      match attempts attempt with
      | ProviderOutcome.ok r => Except.ok r
      | ProviderOutcome.appErr e =>
          if e.retryable then attemptLoopAux attempts (attempt + 1) remaining
          else Except.error e
      | ProviderOutcome.timeoutErr _ => attemptLoopAux attempts (attempt + 1) remaining
      | ProviderOutcome.otherErr _ => attemptLoopAux attempts (attempt + 1) remaining

/-- The retry loop entered at attempt 0: `remaining = max_retries - attempt`
retries are left, so `attempt < max_retries` is `remaining > 0`. -/
def attemptLoop (attempts : Nat → ProviderOutcome) (maxRetries : Nat) :
    Except AppErr LLMResp :=
  attemptLoopAux attempts 0 maxRetries

/-- Python `round(x, 2)` embedded on exact rationals (the float
representation and the half-to-even tie rule are not claim-relevant). -/
def round2 (x : Rat) : Rat := ((round (x * 100) : Int) : Rat) / 100

/-- The fixed fan-out: the keys of `PROMPT_TEMPLATES`, i.e. the
`analysis_types` list of `analyze_all`. -/
inductive AnalysisType
  | marriagePath
  | challenges
  | partnerCharacter
deriving DecidableEq

/-- The `analysis_types` list of `analyze_all`, in source order. -/
def analysisTypes : List AnalysisType :=
  [AnalysisType.marriagePath, AnalysisType.challenges, AnalysisType.partnerCharacter]

/-- The string name of an analysis type. -/
def analysisTypeName : AnalysisType → String
  | AnalysisType.marriagePath => "marriage_path"
  | AnalysisType.challenges => "challenges"
  | AnalysisType.partnerCharacter => "partner_character"

/-- `LLMService._analyze_single` for one analysis type: run the retry
loop from attempt 0 and package the response.  (The unknown-type guard
cannot fire — `AnalysisType` enumerates exactly the template keys — and
the `response is None` guard is unreachable after a successful `break`;
the dict's redundant provider/model echo is not persisted.) -/
def analyzeSingle (attempts : Nat → ProviderOutcome) (maxRetries : Nat) :
    Except AppErr AnalysisItem :=
  match attemptLoop attempts maxRetries with
  | Except.error e => Except.error e
  | Except.ok r =>
      Except.ok { content := r.content, executionTime := round2 (r.latencyMs / 1000)
                  inputTokens := r.inputTokens, outputTokens := r.outputTokens
                  tokenCount := r.totalTokens }

/-- Environment of one `run_task` invocation: the outcomes of its
external effects.  `chart` is the combined outcome of
`ziwei_service.get_astrolabe_data` + `build_text_description`;
`attempts ty k` is what the provider call of sub-analysis `ty` does on
retry attempt `k`; `order` is the `as_completed` completion order of the
three futures; `batchElapsed` is the wall-clock time of the whole batch;
`cancelledAt k` says whether the status re-read of `_raise_if_cancelled`
at checkpoint `k` observes a concurrent user cancellation (checkpoint 0
precedes `mark_running`, 1 precedes the 80% write, `1+d` runs inside the
progress callback after the d-th completed future, 5 precedes the 95%
write). -/
structure RunEnv where
  chart : Except AppErr String
  attempts : AnalysisType → Nat → ProviderOutcome
  order : List AnalysisType
  batchElapsed : Rat
  cancelledAt : Nat → Bool

/-- `status == 'cancelled'`. -/
def isCancelledStatus : Status → Bool
  | Status.cancelled => true
  | _ => false

/-- `_raise_if_cancelled` at checkpoint `k`: the status re-read sees
either the record this run has been writing or a concurrent cancel. -/
def checkCancelled (env : RunEnv) (k : Nat) (t : TaskRec) : Bool :=
  env.cancelledAt k || isCancelledStatus t.status

/-- How the `as_completed` loop of `analyze_all` ends. -/
inductive FanSignal
  | finished (items : List (AnalysisType × AnalysisItem))
  | appFail (e : AppErr)
  | cancelHit
deriving DecidableEq

/-- `{1: 45, 2: 65, 3: 85}.get(done_count, 85)`. -/
def progressFor (done : Nat) : Nat :=
  if done = 1 then 45 else if done = 2 then 65 else 85

/-- The `as_completed` loop of `analyze_all`, wired to `run_task`'s
`on_llm_progress` callback.  Each completed future is `result()`-ed
first — a raised `AppError` escapes the whole loop — then the callback
runs `_raise_if_cancelled` (a hit raises `CancelledTaskError`) and writes
`progressFor done_count`.  Returns the record after the callbacks' writes,
the progress values written, and how the loop ended. -/
def fanLoop (env : RunEnv) (maxRetries : Nat) :
    List AnalysisType → Nat → List (AnalysisType × AnalysisItem) → TaskRec →
    TaskRec × List Nat × FanSignal
  | [], _, acc, t => (t, [], FanSignal.finished acc)
  | ty :: rest, done, acc, t =>
      match analyzeSingle (env.attempts ty) maxRetries with
      | Except.error e => (t, [], FanSignal.appFail e)
      | Except.ok item =>
          if checkCancelled env (1 + (done + 1)) t then (t, [], FanSignal.cancelHit)
          else
            let t1 := markProgress t ("llm_" ++ analysisTypeName ty) (progressFor (done + 1))
            let res := fanLoop env maxRetries rest (done + 1) (acc ++ [(ty, item)]) t1
            (res.1, progressFor (done + 1) :: res.2.1, res.2.2)

/-- `AnalysisService.run_task` on an existing task record `t0`, with the
outcomes of its external effects given by `env`.  Returns the final task
record, the result store after the run, and the list of progress values
written to the task row during the run (the record's creation had
already written 0).  `CancelledTaskError` ends in `mark_cancelled`; an
`AppError` (and the generic `except`, whose `A5000` wrapper is just a
particular `AppErr`) ends in `mark_failed`; success persists the result
idempotently and ends in `mark_succeeded`. -/
def runTask (cfg : ServiceConfig) (t0 : TaskRec) (store : ResultStore) (env : RunEnv) :
    TaskRec × ResultStore × List Nat :=
  if checkCancelled env 0 t0 then (markCancelled t0, store, [])
  else
    let t1 := markRunning t0 "generate_chart" 15
    match env.chart with
    | Except.error e => (markFailed t1 e.code e.message, store, [15])
    | Except.ok textDescription =>
        if checkCancelled env 1 t1 then (markCancelled t1, store, [15])
        else
          let t2 := markProgress t1 "llm_batch" 80
          let fan := fanLoop env cfg.llmMaxRetries env.order 0 [] t2
          match fan.2.2 with
          | FanSignal.cancelHit => (markCancelled fan.1, store, 15 :: 80 :: fan.2.1)
          | FanSignal.appFail e =>
              (markFailed fan.1 e.code e.message, store, 15 :: 80 :: fan.2.1)
          | FanSignal.finished items =>
              if checkCancelled env 5 fan.1 then
                (markCancelled fan.1, store, 15 :: 80 :: fan.2.1)
              else
                let t4 := markProgress fan.1 "persist_result" 95
                let d : ResultData :=
                  { birthInfo := { date := t0.birthDate, timezone := t0.timezone
                                   gender := t0.gender, calendar := t0.calendar }
                    textDescription := textDescription
                    provider := t0.provider, model := t0.model
                    promptVersion := t0.promptVersion
                    analysis := items.map (fun x => (analysisTypeName x.1, x.2))
                    totalExecutionTime := env.batchElapsed
                    totalTokenCount := (items.map (fun x => x.2.tokenCount)).sum }
                let sv := saveResult store t0.cacheKey d
                (markSucceeded t4 sv.1, sv.2, 15 :: 80 :: (fan.2.1 ++ [95, 100]))

/-- Fixture: a freshly created task record with a plain cache key. -/
def exRunTask : TaskRec :=
  createTask "task_run"
    { date := "1990-01-01", timezone := 8, gender := "男", calendar := "solar" }
    "mock" "mock-v1" "v1" "cache_plain"

/-- Fixture: a successful provider response. -/
def exOkResp : LLMResp :=
  { content := "result text", latencyMs := 1000, inputTokens := 10, outputTokens := 20
    totalTokens := 30 }

/-- Fixture: an environment in which everything succeeds on the first
attempt and no cancellation ever arrives. -/
def exEnvOk : RunEnv :=
  { chart := Except.ok "chart text", attempts := fun _ _ => ProviderOutcome.ok exOkResp
    order := analysisTypes, batchElapsed := 1, cancelledAt := fun _ => false }

/-- Executable "the recorded values never decrease". -/
def nonDecreasing : List Nat → Bool
  | [] => true
  | [_] => true
  | a :: b :: rest => if a ≤ b then nonDecreasing (b :: rest) else false

theorem nonDecreasing_iff_chain (l : List Nat) :
    nonDecreasing l = true ↔ List.Chain' (fun a b => a ≤ b) l := by
  induction l with
  | nil => simp [nonDecreasing]
  | cons a tl ih =>
      cases tl with
      | nil => simp [nonDecreasing]
      | cons b rest =>
          rw [List.chain'_cons]
          by_cases hab : a ≤ b <;> simp [nonDecreasing, hab, ih]

/-- C3 evidence: on a fully successful run the progress values recorded
on the task row are `0, 15, 80, 45, 65, 85, 95, 100` — the run writes 80
(`llm_batch`) and the fan-out callbacks then write 45 and 65, so the
recorded sequence DECREASES at 80 → 45 while the task is running (not
terminal), although it does end at 100.  `mark_progress` has no guard
against writing a lower value. -/
theorem progress_trace_decreases :
    (runTask exCfg exRunTask ResultStore.empty exEnvOk).1.status = Status.succeeded ∧
    exRunTask.progress :: (runTask exCfg exRunTask ResultStore.empty exEnvOk).2.2 =
      [0, 15, 80, 45, 65, 85, 95, 100] ∧
    ¬ List.Chain' (fun a b => a ≤ b)
      (exRunTask.progress :: (runTask exCfg exRunTask ResultStore.empty exEnvOk).2.2) := by
  refine ⟨by decide, by decide, ?_⟩
  rw [← nonDecreasing_iff_chain]
  decide

theorem isCancelledStatus_eq_false (s : Status) (h : s ≠ Status.cancelled) :
    isCancelledStatus s = false := by
  cases s <;> simp_all [isCancelledStatus]

theorem checkCancelled_eq_false (env : RunEnv) (k : Nat) (t : TaskRec)
    (h1 : env.cancelledAt k = false) (h2 : t.status ≠ Status.cancelled) :
    checkCancelled env k t = false := by
  simp [checkCancelled, h1, isCancelledStatus_eq_false _ h2]

theorem fanLoop_appFail (env : RunEnv) (maxR : Nat) (order : List AnalysisType)
    (hnc : ∀ k, env.cancelledAt k = false) :
    ∀ (done : Nat) (acc : List (AnalysisType × AnalysisItem)) (t : TaskRec),
    t.status = Status.running →
    (∃ ty ∈ order, ∃ e, analyzeSingle (env.attempts ty) maxR = Except.error e) →
    ∃ e', (fanLoop env maxR order done acc t).2.2 = FanSignal.appFail e' := by
  induction order with
  | nil =>
      intro done acc t ht hex
      obtain ⟨ty, hty, _⟩ := hex
      simp at hty
  | cons ty0 rest ih =>
      intro done acc t ht hex
      obtain ⟨ty, hty, e, hfail⟩ := hex
      cases hcase : analyzeSingle (env.attempts ty0) maxR with
      | error e0 => exact ⟨e0, by simp [fanLoop, hcase]⟩
      | ok item =>
          have hcc : checkCancelled env (1 + (done + 1)) t = false :=
            checkCancelled_eq_false env _ t (hnc _) (by rw [ht]; intro hc; cases hc)
          rcases List.mem_cons.mp hty with rfl | hmem
          · rw [hcase] at hfail
            cases hfail
          · obtain ⟨e', he'⟩ := ih (done + 1) (acc ++ [(ty0, item)])
              (markProgress t ("llm_" ++ analysisTypeName ty0) (progressFor (done + 1)))
              (by simpa [markProgress] using ht) ⟨ty, hmem, e, hfail⟩
            exact ⟨e', by simp [fanLoop, hcase, hcc, he']⟩

/-- C5: all-or-nothing fan-out.  Whenever the chart step succeeded but at
least one of the three sub-analyses ends in an error (its provider call
raised a non-retryable error or its retry budget was exhausted — any
`Except.error` outcome of `_analyze_single`), and no cancellation is
observed, the whole `run_task` ends with the task `failed`,
`error_code`/`error_message` set, and the result store is left exactly
as it was: no Result is persisted for the task's fingerprint, regardless
of how many of the other sub-analyses succeeded. -/
theorem fanout_all_or_nothing (cfg : ServiceConfig) (t0 : TaskRec) (store : ResultStore)
    (env : RunEnv) (ty : AnalysisType) (e : AppErr) (d : String)
    (hchart : env.chart = Except.ok d)
    (hnc : ∀ k, env.cancelledAt k = false)
    (ht0 : t0.status ≠ Status.cancelled)
    (hty : ty ∈ env.order)
    (hfail : analyzeSingle (env.attempts ty) cfg.llmMaxRetries = Except.error e) :
    (runTask cfg t0 store env).1.status = Status.failed ∧
    (runTask cfg t0 store env).1.errorCode.isSome = true ∧
    (runTask cfg t0 store env).1.errorMessage.isSome = true ∧
    (runTask cfg t0 store env).2.1 = store := by
  have hc0 : checkCancelled env 0 t0 = false :=
    checkCancelled_eq_false env 0 t0 (hnc 0) ht0
  have hc1 : checkCancelled env 1 (markRunning t0 "generate_chart" 15) = false :=
    checkCancelled_eq_false env 1 _ (hnc 1) (by simp [markRunning])
  obtain ⟨e', he'⟩ := fanLoop_appFail env cfg.llmMaxRetries env.order hnc 0 []
    (markProgress (markRunning t0 "generate_chart" 15) "llm_batch" 80)
    (by simp [markProgress, markRunning]) ⟨ty, hty, e, hfail⟩
  unfold runTask
  simp only [hc0, hchart, hc1, Bool.false_eq_true, if_false]
  simp only [he']
  simp [markFailed]

/-- Fixture: an environment in which the `challenges` sub-analysis raises
a non-retryable provider error while the other two succeed. -/
def exEnvFail : RunEnv :=
  { chart := Except.ok "chart text"
    attempts := fun ty _ =>
      if ty = AnalysisType.challenges then
        ProviderOutcome.appErr (businessError "A3002" "provider down" 502 false)
      else ProviderOutcome.ok exOkResp
    order := analysisTypes, batchElapsed := 1, cancelledAt := fun _ => false }

/-- Witness for C5: the `challenges` sub-call fails non-retryably while
`marriage_path` and `partner_character` succeed; the run fails and
persists nothing. -/
theorem fanout_all_or_nothing_witness :
    exEnvFail.chart = Except.ok "chart text" ∧
    exRunTask.status ≠ Status.cancelled ∧
    AnalysisType.challenges ∈ exEnvFail.order ∧
    analyzeSingle (exEnvFail.attempts AnalysisType.challenges) exCfg.llmMaxRetries =
      Except.error (businessError "A3002" "provider down" 502 false) ∧
    ((runTask exCfg exRunTask ResultStore.empty exEnvFail).1.status = Status.failed ∧
     (runTask exCfg exRunTask ResultStore.empty exEnvFail).1.errorCode.isSome = true ∧
     (runTask exCfg exRunTask ResultStore.empty exEnvFail).1.errorMessage.isSome = true ∧
     (runTask exCfg exRunTask ResultStore.empty exEnvFail).2.1 = ResultStore.empty) := by
  refine ⟨rfl, by decide, by decide, by decide, ?_⟩
  exact fanout_all_or_nothing exCfg exRunTask ResultStore.empty exEnvFail
    AnalysisType.challenges (businessError "A3002" "provider down" 502 false) "chart text"
    rfl (fun k => rfl) (by decide) (by decide) (by decide)

theorem findByCacheKey_saveResult (s : ResultStore) (k : String) (d : ResultData) :
    ∃ r, findByCacheKey (saveResult s k d).2 k = some r := by
  cases hf : findByCacheKey s k with
  | some r =>
      refine ⟨r, ?_⟩
      rw [saveResult_found s k d r hf]
      exact hf
  | none =>
      refine ⟨{ id := s.nextId, cacheKey := k, data := d }, ?_⟩
      rw [saveResult_fresh s k d hf]
      show (s.rows ++ [({ id := s.nextId, cacheKey := k, data := d } : ResultRow)]).find?
          (fun a => a.cacheKey == k) =
        some { id := s.nextId, cacheKey := k, data := d }
      rw [find?_append_of_none _ _ _ hf]
      simp [List.find?]

/-- Supporting fact for C2's "after a task for that fingerprint has
succeeded": whenever `run_task` ends with the task `succeeded`, the
result store afterwards holds a row under the task's fingerprint, which
is exactly what `submit_analysis`'s cache lookup then hits. -/
theorem runTask_success_persists (cfg : ServiceConfig) (t0 : TaskRec)
    (store : ResultStore) (env : RunEnv)
    (h : (runTask cfg t0 store env).1.status = Status.succeeded) :
    ∃ r, findByCacheKey (runTask cfg t0 store env).2.1 t0.cacheKey = some r := by
  unfold runTask at h ⊢
  by_cases h0 : checkCancelled env 0 t0 = true
  · simp [h0, markCancelled] at h
  · rw [Bool.not_eq_true] at h0
    simp only [h0, Bool.false_eq_true, if_false] at h ⊢
    cases hch : env.chart with
    | error e => simp [hch, markFailed] at h
    | ok d =>
        simp only [hch] at h ⊢
        by_cases h1 : checkCancelled env 1 (markRunning t0 "generate_chart" 15) = true
        · simp [h1, markCancelled] at h
        · rw [Bool.not_eq_true] at h1
          simp only [h1, Bool.false_eq_true, if_false] at h ⊢
          cases hfan : (fanLoop env cfg.llmMaxRetries env.order 0 []
              (markProgress (markRunning t0 "generate_chart" 15) "llm_batch" 80)).2.2 with
          | cancelHit => simp [hfan, markCancelled] at h
          | appFail e => simp [hfan, markFailed] at h
          | finished items =>
              simp only [hfan] at h ⊢
              by_cases h5 : checkCancelled env 5 (fanLoop env cfg.llmMaxRetries env.order 0 []
                  (markProgress (markRunning t0 "generate_chart" 15) "llm_batch" 80)).1 = true
              · simp [h5, markCancelled] at h
              · rw [Bool.not_eq_true] at h5
                simp only [h5, Bool.false_eq_true, if_false]
                exact findByCacheKey_saveResult store t0.cacheKey _

/-- Position of an in-flight `run_task` invocation between two of its
database writes: `start` is before `mark_running`, `chartPhase` after the
15% write, `fan0` after the 80% write, `fan1`–`fan3` after the callback
writes (45/65/85), `persistPhase` after the 95% write (the
`save_result` + `mark_succeeded` tail follows). -/
inductive RunPC
  | start
  | chartPhase
  | fan0
  | fan1
  | fan2
  | fan3
  | persistPhase
deriving DecidableEq

/-- The pipeline state of one task: its `analysis_tasks` row, the number
of outstanding queue entries for it, and the position of the worker run
consuming it (if one is active).  Other tasks only interact through the
result store, which the `result_ref` invariant does not mention, so one
task's row suffices. -/
structure TState where
  task : TaskRec
  pending : Nat
  run : Option RunPC
deriving DecidableEq

/-- One atomic transition of the task pipeline: a worker picking a queue
entry up, one database write of `run_task` (each checkpoint read is
bundled with the write that follows it; a user cancel falling between
the read and the write commutes with the write on the record, since the
write either ignores `status` or overwrites it), or a user-facing
`cancel_task`/`retry_task` call.  Environment nondeterminism (chart or
sub-analysis failure, `save_result` failure, completion order) appears
as the free choice between constructors and the free `code`/`msg`/`lbl`
parameters. -/
inductive WStep (cfg : ServiceConfig) : TState → TState → Prop
  | pickup (s : TState) (h : s.run = none) (hp : 1 ≤ s.pending) :
      WStep cfg s { s with pending := s.pending - 1, run := some RunPC.start }
  | obsCancel (s : TState) (pc : RunPC) (h : s.run = some pc)
      (hc : s.task.status = Status.cancelled) :
      WStep cfg s { s with task := markCancelled s.task, run := none }
  | startRun (s : TState) (h : s.run = some RunPC.start) :
      WStep cfg s { s with task := markRunning s.task "generate_chart" 15,
                           run := some RunPC.chartPhase }
  | runFail (s : TState) (pc : RunPC) (code msg : String) (h : s.run = some pc)
      (hpc : pc ≠ RunPC.start) :
      WStep cfg s { s with task := markFailed s.task code msg, run := none }
  | progress80 (s : TState) (h : s.run = some RunPC.chartPhase) :
      WStep cfg s { s with task := markProgress s.task "llm_batch" 80,
                           run := some RunPC.fan0 }
  | fanCb1 (s : TState) (lbl : String) (h : s.run = some RunPC.fan0) :
      WStep cfg s { s with task := markProgress s.task lbl 45, run := some RunPC.fan1 }
  | fanCb2 (s : TState) (lbl : String) (h : s.run = some RunPC.fan1) :
      WStep cfg s { s with task := markProgress s.task lbl 65, run := some RunPC.fan2 }
  | fanCb3 (s : TState) (lbl : String) (h : s.run = some RunPC.fan2) :
      WStep cfg s { s with task := markProgress s.task lbl 85, run := some RunPC.fan3 }
  | progress95 (s : TState) (h : s.run = some RunPC.fan3) :
      WStep cfg s { s with task := markProgress s.task "persist_result" 95,
                           run := some RunPC.persistPhase }
  | succeed (s : TState) (rid : Nat) (h : s.run = some RunPC.persistPhase) :
      WStep cfg s { s with task := markSucceeded s.task rid, run := none }
  | userCancel (s : TState) (h : isActiveStatus s.task.status = true) :
      WStep cfg s { s with task := markCancelled s.task }
  | retryExhausted (s : TState) (h : s.task.status = Status.failed)
      (hb : cfg.maxTaskRetry < s.task.retryCount + 1) :
      WStep cfg s { s with task := incrementRetry s.task }
  | retryOk (s : TState) (h : s.task.status = Status.failed)
      (hb : s.task.retryCount + 1 ≤ cfg.maxTaskRetry) :
      WStep cfg s { s with task := setQueued (incrementRetry s.task) "queued",
                           pending := s.pending + 1 }

/-- The state right after `submit_analysis` created and enqueued a task. -/
def initTState (taskId : String) (b : BirthInfo)
    (provider model promptVersion cacheKey : String) : TState :=
  { task := createTask taskId b provider model promptVersion cacheKey
    pending := 1, run := none }

/-- States reachable from `s0` by pipeline transitions. -/
inductive ReachableT (cfg : ServiceConfig) (s0 : TState) : TState → Prop
  | init : ReachableT cfg s0 s0
  | step (s s' : TState) : ReachableT cfg s0 s → WStep cfg s s' → ReachableT cfg s0 s'

/-- The inductive invariant: (1) the claim — `result_id` is set iff the
status is `succeeded`; and the bookkeeping facts making it inductive:
(2) at most one queue entry exists, (3) none while a run is active,
(4) a pending entry implies the task is queued or cancelled, (5) a run
at `start` likewise, (6) a run past `start` implies running or
cancelled. -/
def InvT (s : TState) : Prop :=
  (s.task.resultId.isSome = true ↔ s.task.status = Status.succeeded) ∧
  s.pending ≤ 1 ∧
  (s.run ≠ none → s.pending = 0) ∧
  (1 ≤ s.pending → s.task.status = Status.queued ∨ s.task.status = Status.cancelled) ∧
  (s.run = some RunPC.start →
    s.task.status = Status.queued ∨ s.task.status = Status.cancelled) ∧
  (∀ pc, s.run = some pc → pc ≠ RunPC.start →
    s.task.status = Status.running ∨ s.task.status = Status.cancelled)

theorem invT_init (taskId : String) (b : BirthInfo)
    (provider model promptVersion cacheKey : String) :
    InvT (initTState taskId b provider model promptVersion cacheKey) := by
  refine ⟨?_, ?_, ?_, ?_, ?_, ?_⟩ <;> simp [initTState, createTask, InvT]

theorem invT_step (cfg : ServiceConfig) (s s' : TState)
    (hinv : InvT s) (hstep : WStep cfg s s') : InvT s' := by
  obtain ⟨i1, i2, i3, i4, i5, i6⟩ := hinv
  cases hstep with
  | pickup h hp =>
      have hst := i4 hp
      simp only [InvT]
      refine ⟨i1, by omega, fun _ => by omega, ?_, fun _ => hst, ?_⟩
      · intro hge
        exact absurd hge (by omega)
      · intro pc hpc hne
        cases hpc
        exact absurd rfl hne
  | obsCancel pc h hc =>
      have hres : s.task.resultId.isSome = false := by
        cases hr : s.task.resultId.isSome
        · rfl
        · have hx := i1.mp hr
          rw [hc] at hx
          cases hx
      simp only [InvT, markCancelled]
      refine ⟨by simp [hres], i2, ?_, fun _ => Or.inr trivial, ?_, ?_⟩
      · intro hx
        exact absurd rfl hx
      · intro hx
        cases hx
      · intro pc2 hpc2 hne
        cases hpc2
  | startRun h =>
      have hst := i5 h
      have hres : s.task.resultId.isSome = false := by
        cases hr : s.task.resultId.isSome
        · rfl
        · have hx := i1.mp hr
          rcases hst with h' | h' <;> rw [h'] at hx <;> cases hx
      have hp0 : s.pending = 0 := i3 (by rw [h]; exact fun hx => by cases hx)
      simp only [InvT, markRunning]
      refine ⟨by simp [hres], i2, fun _ => hp0, ?_, ?_, ?_⟩
      · intro hge
        exact absurd hge (by omega)
      · intro hx
        cases hx
      · intro pc hpc hne
        cases hpc
        exact Or.inl trivial
  | runFail pc code msg h hpc =>
      have hst := i6 pc h hpc
      have hres : s.task.resultId.isSome = false := by
        cases hr : s.task.resultId.isSome
        · rfl
        · have hx := i1.mp hr
          rcases hst with h' | h' <;> rw [h'] at hx <;> cases hx
      have hp0 : s.pending = 0 := i3 (by rw [h]; exact fun hx => by cases hx)
      simp only [InvT, markFailed]
      refine ⟨by simp [hres], i2, ?_, ?_, ?_, ?_⟩
      · intro hx
        exact absurd rfl hx
      · intro hge
        exact absurd hge (by omega)
      · intro hx
        cases hx
      · intro pc2 hpc2 hne
        cases hpc2
  | progress80 h =>
      have hst := i6 RunPC.chartPhase h (fun hx => by cases hx)
      have hp0 : s.pending = 0 := i3 (by rw [h]; exact fun hx => by cases hx)
      simp only [InvT, markProgress]
      refine ⟨i1, i2, fun _ => hp0, ?_, ?_, ?_⟩
      · intro hge
        exact absurd hge (by omega)
      · intro hx
        cases hx
      · intro pc hpc hne
        cases hpc
        exact hst
  | fanCb1 lbl h =>
      have hst := i6 RunPC.fan0 h (fun hx => by cases hx)
      have hp0 : s.pending = 0 := i3 (by rw [h]; exact fun hx => by cases hx)
      simp only [InvT, markProgress]
      refine ⟨i1, i2, fun _ => hp0, ?_, ?_, ?_⟩
      · intro hge
        exact absurd hge (by omega)
      · intro hx
        cases hx
      · intro pc hpc hne
        cases hpc
        exact hst
  | fanCb2 lbl h =>
      have hst := i6 RunPC.fan1 h (fun hx => by cases hx)
      have hp0 : s.pending = 0 := i3 (by rw [h]; exact fun hx => by cases hx)
      simp only [InvT, markProgress]
      refine ⟨i1, i2, fun _ => hp0, ?_, ?_, ?_⟩
      · intro hge
        exact absurd hge (by omega)
      · intro hx
        cases hx
      · intro pc hpc hne
        cases hpc
        exact hst
  | fanCb3 lbl h =>
      have hst := i6 RunPC.fan2 h (fun hx => by cases hx)
      have hp0 : s.pending = 0 := i3 (by rw [h]; exact fun hx => by cases hx)
      simp only [InvT, markProgress]
      refine ⟨i1, i2, fun _ => hp0, ?_, ?_, ?_⟩
      · intro hge
        exact absurd hge (by omega)
      · intro hx
        cases hx
      · intro pc hpc hne
        cases hpc
        exact hst
  | progress95 h =>
      have hst := i6 RunPC.fan3 h (fun hx => by cases hx)
      have hp0 : s.pending = 0 := i3 (by rw [h]; exact fun hx => by cases hx)
      simp only [InvT, markProgress]
      refine ⟨i1, i2, fun _ => hp0, ?_, ?_, ?_⟩
      · intro hge
        exact absurd hge (by omega)
      · intro hx
        cases hx
      · intro pc hpc hne
        cases hpc
        exact hst
  | succeed rid h =>
      have hp0 : s.pending = 0 := i3 (by rw [h]; exact fun hx => by cases hx)
      simp only [InvT, markSucceeded]
      refine ⟨by simp, i2, ?_, ?_, ?_, ?_⟩
      · intro hx
        exact absurd rfl hx
      · intro hge
        exact absurd hge (by omega)
      · intro hx
        cases hx
      · intro pc hpc hne
        cases hpc
  | userCancel h =>
      have hnos : s.task.status ≠ Status.succeeded := by
        intro hx
        rw [hx] at h
        simp [isActiveStatus] at h
      have hres : s.task.resultId.isSome = false := by
        cases hr : s.task.resultId.isSome
        · rfl
        · exact absurd (i1.mp hr) hnos
      simp only [InvT, markCancelled]
      exact ⟨by simp [hres], i2, i3, fun _ => Or.inr trivial, fun _ => Or.inr trivial,
        fun pc hpc hne => Or.inr trivial⟩
  | retryExhausted h hb =>
      simp only [InvT, incrementRetry]
      exact ⟨i1, i2, i3, i4, i5, i6⟩
  | retryOk h hb =>
      have hres : s.task.resultId.isSome = false := by
        cases hr : s.task.resultId.isSome
        · rfl
        · have hx := i1.mp hr
          rw [h] at hx
          cases hx
      have hrun : s.run = none := by
        cases hr : s.run with
        | none => rfl
        | some pc =>
            by_cases hpc : pc = RunPC.start
            · subst hpc
              rcases i5 hr with h' | h' <;> rw [h] at h' <;> cases h'
            · rcases i6 pc hr hpc with h' | h' <;> rw [h] at h' <;> cases h'
      have hp0 : s.pending = 0 := by
        by_cases hg : 1 ≤ s.pending
        · rcases i4 hg with h' | h' <;> rw [h] at h' <;> cases h'
        · omega
      simp only [InvT, setQueued, incrementRetry]
      refine ⟨by simp [hres], by omega, ?_, fun _ => Or.inl trivial, ?_, ?_⟩
      · intro hx
        rw [hrun] at hx
        exact absurd rfl hx
      · intro hx
        rw [hrun] at hx
        cases hx
      · intro pc hpc hne
        rw [hrun] at hpc
        cases hpc

/-- C9: the result-reference invariant.  In every state reachable from a
freshly submitted task by pipeline transitions — worker pickup, the
`run_task` writes (`mark_running`, `mark_progress`, `mark_succeeded`,
`mark_failed`, `mark_cancelled`), user `cancel_task`, and `retry_task`
(`increment_retry`/`set_queued`) — the task's `result_id` is non-null
exactly when its status is `succeeded`. -/
theorem result_ref_iff_succeeded (cfg : ServiceConfig) (taskId : String) (b : BirthInfo)
    (provider model promptVersion cacheKey : String) (s : TState)
    (h : ReachableT cfg (initTState taskId b provider model promptVersion cacheKey) s) :
    s.task.resultId.isSome = true ↔ s.task.status = Status.succeeded := by
  have hinv : InvT s := by
    induction h with
    | init => exact invT_init taskId b provider model promptVersion cacheKey
    | step s1 s2 _ hstep ih => exact invT_step cfg s1 s2 ih hstep
  exact hinv.1

/-- Witness for C9: the invariant at the freshly created example task
(reachable by `ReachableT.init`). -/
theorem result_ref_iff_succeeded_witness :
    ((initTState "task_run"
      { date := "1990-01-01", timezone := 8, gender := "男", calendar := "solar" }
      "mock" "mock-v1" "v1" "cache_plain").task.resultId.isSome = true ↔
    (initTState "task_run"
      { date := "1990-01-01", timezone := 8, gender := "男", calendar := "solar" }
      "mock" "mock-v1" "v1" "cache_plain").task.status = Status.succeeded) :=
  result_ref_iff_succeeded exCfg "task_run"
    { date := "1990-01-01", timezone := 8, gender := "男", calendar := "solar" }
    "mock" "mock-v1" "v1" "cache_plain" _ ReachableT.init

end Oracle
